import Mathlib

/-
Shallow embedding of the booking admission and teacher-assignment engine of
the `final_cordova_live_class_booking` repository (`backend.py` and
`teacher_mapping.py`).

Modelling conventions:
* Calendar dates are `Int` day ordinals.  The source passes ISO
  `YYYY-MM-DD` strings, whose equality and ordering agree with the
  day-ordinal equality and ordering, and `_enforce_booking_window` parses
  them into `date` objects before comparing; `timedelta(days = 1)` is `+ 1`.
* The local wall clock is minutes since midnight (`Nat`); the comparison
  `local_now.time() >= time(14, 0)` is exactly `840 ≤ nowMinutes`.
* The two SQL tables (`bookings`, `teacher_unavailability`) are lists of
  records in insertion order; `SELECT COUNT(*) ... > 0` / `SELECT 1 ...
  LIMIT 1` queries are `List.any`, and `COUNT(*)` queries are lengths of
  `List.filter`.  The `SERIAL` / `AUTOINCREMENT` id column is the `nextId`
  counter; `SELECT MAX(id)` is a fold with `Nat.max` (`0` standing for the
  `NULL` that SQL returns on an empty table, which Python maps to `None`).
* Streamlit secrets are a `Config` record; `PER_TEACHER_LIMITS` entries
  whose values fail `int(v)` are skipped by the source, so the model takes
  the already-parsed `(key, value)` pairs, in dictionary iteration order.
* E-mail dispatch and cache clearing are side effects outside the decision
  logic and are not modelled.
-/

namespace Cordova

/-- Characters kept verbatim by `_norm_key` (`[A-Z0-9]` after upcasing). -/
def isKeyChar (c : Char) : Bool :=
  (('A' ≤ c) && (c ≤ 'Z')) || (('0' ≤ c) && (c ≤ '9'))

/-- Collapse each run of consecutive underscores to a single underscore,
mirroring `re.sub(r"[^A-Z0-9]+", "_", name)` after every non-key character
has been replaced by an underscore. -/
def squeezeUnderscores : List Char → List Char
  | [] => []
  | [c] => [c]
  | a :: b :: rest =>
    if a == '_' && b == '_' then squeezeUnderscores (b :: rest)
    else a :: squeezeUnderscores (b :: rest)

/-- Python's `str.strip("_")`: drop underscores from both ends. -/
def stripUnderscores (l : List Char) : List Char :=
  ((l.dropWhile (fun c => c == '_')).reverse.dropWhile (fun c => c == '_')).reverse

/-- `backend._norm_key`: upper-case the name (the teacher names in this code
base are ASCII, where `Char.toUpper` agrees with Python's `str.upper`),
replace each maximal run of non-`[A-Z0-9]` characters by one underscore,
and strip leading and trailing underscores. -/
def _norm_key (name : String) : String :=
  String.mk (stripUnderscores (squeezeUnderscores
    ((name.data.map Char.toUpper).map (fun c => if isKeyChar c then c else '_'))))

/-- The configuration drawn from Streamlit secrets. -/
structure Config where
  /-- `PER_TEACHER_LIMITS`, already `int(...)`-parsed, in dict order. -/
  perTeacherRaw : List (String × Int)
  /-- `MAX_CLASSES_PER_TEACHER_PER_DAY` (secrets default `2`). -/
  defaultMaxPerTeacher : Int
  /-- `MAX_PARALLEL_CLASSES_PER_SLOT` (secrets default `3`). -/
  maxParallelPerSlot : Nat
  deriving Repr, DecidableEq

/-- The configuration obtained when none of the capacity secrets is set. -/
def defaultConfig : Config :=
  { perTeacherRaw := [], defaultMaxPerTeacher := 2, maxParallelPerSlot := 3 }

/-- First-match association-list lookup (Python `dict` access on a list of
pairs whose later entries were written last, see `_per_teacher_limits`). -/
def lookupAssoc {β : Type} : List (String × β) → String → Option β
  | [], _ => none
  | p :: rest, k => if p.1 == k then some p.2 else lookupAssoc rest k

/-- `backend._per_teacher_limits` as an association list: normalise every
configured key (later duplicates overwrite earlier ones, hence the
`reverse` before a first-match lookup), then `setdefault("MEGHA", 1)`,
which is consulted only when no configured key matched. -/
def _per_teacher_limits (cfg : Config) : List (String × Int) :=
  ((cfg.perTeacherRaw.map (fun p => (_norm_key p.1, p.2))).reverse) ++ [("MEGHA", 1)]

/-- `backend.daily_limit_for_teacher`. -/
def daily_limit_for_teacher (cfg : Config) (teacher : String) : Int :=
  (lookupAssoc (_per_teacher_limits cfg) (_norm_key teacher)).getD cfg.defaultMaxPerTeacher

/-- The explicitly configured per-teacher override for a normalised key:
the `limits` dictionary of `_per_teacher_limits` before the `MEGHA`
`setdefault` is applied. -/
def configured_override (cfg : Config) (key : String) : Option Int :=
  lookupAssoc ((cfg.perTeacherRaw.map (fun p => (_norm_key p.1, p.2))).reverse) key

/-- `teacher_mapping.TEACHER_MAP`: subject → candidates in priority order. -/
def TEACHER_MAP : List (String × List String) :=
  [("Hindi", ["Bharti Ma\x27am"]),
   ("Mathematics", ["Vivek Sir"]),
   ("GK", ["Dakshika", "Ishita"]),
   ("SST", ["Ishita", "Shivangi"]),
   ("Science", ["Kalpana Ma\x27am", "Payal", "Sneha"]),
   ("English", ["Aparajita", "Deepanshi", "Megha"]),
   ("Pre Primary", ["Yaindrila Ma\x27am"]),
   ("EVS", ["Yaindrila Ma\x27am", "Kalpana Ma\x27am"]),
   ("Computer", ["Arpit", "Geetanjali"])]

/-- `teacher_mapping.candidates_for_subject`: `TEACHER_MAP.get(subject, [])`. -/
def candidates_for_subject (subject : String) : List String :=
  (lookupAssoc TEACHER_MAP subject).getD []

/-- One row of the `bookings` table. -/
structure Booking where
  id : Nat
  booking_type : String
  school_name : String
  title_used : Option String
  grade : Option String
  curriculum : Option String
  subject : String
  date : Int
  slot : String
  topic : Option String
  salesperson_name : String
  salesperson_number : String
  salesperson_email : String
  teacher : String
  timestamp : String
  deriving Repr, DecidableEq

/-- One row of the `teacher_unavailability` table (`slot = none` means the
whole day). -/
structure Unavail where
  teacher : String
  date : Int
  slot : Option String
  deriving Repr, DecidableEq

/-- The database state. -/
structure DB where
  bookings : List Booking
  unavail : List Unavail
  /-- Next id the `SERIAL` / `AUTOINCREMENT` column will assign. -/
  nextId : Nat
  deriving Repr, DecidableEq

def emptyDB : DB := { bookings := [], unavail := [], nextId := 1 }

/-- The local instant at which a request is processed: `now_local().date()`,
`now_local().time()` in minutes, and the `isoformat` timestamp string. -/
structure Clock where
  today : Int
  nowMinutes : Nat
  tsString : String
  deriving Repr, DecidableEq

/-- The `form_data` / `data` dictionary handed to `attempt_booking` and
`record_booking` (the `teacher` entry is overwritten by `attempt_booking`
before `record_booking` reads it). -/
structure FormData where
  booking_type : String
  school_name : String
  title_used : Option String
  grade : Option String
  curriculum : Option String
  subject : String
  date : Int
  slot : String
  topic : Option String
  salesperson_name : String
  salesperson_number : String
  salesperson_email : String
  teacher : String
  deriving Repr, DecidableEq

/-- `backend.is_teacher_unavailable`: `COUNT(*) > 0` over rows with this
teacher and date whose slot is `NULL` or equals the requested slot. -/
def is_teacher_unavailable (db : DB) (teacher : String) (day : Int) (slot : String) : Bool :=
  db.unavail.any (fun u =>
    u.teacher == teacher && u.date == day && (u.slot == none || u.slot == some slot))

/-- `backend.teacher_busy`: some booking row has this teacher at this exact
(date, slot). -/
def teacher_busy (db : DB) (teacher : String) (day : Int) (slot : String) : Bool :=
  db.bookings.any (fun b => b.teacher == teacher && b.date == day && b.slot == slot)

/-- `backend.exists_booking`: some booking row matches (school, subject,
date, slot). -/
def exists_booking (db : DB) (school subject : String) (day : Int) (slot : String) : Bool :=
  db.bookings.any (fun b =>
    b.school_name == school && b.subject == subject && b.date == day && b.slot == slot)

/-- `backend.count_teacher_on_day`. -/
def count_teacher_on_day (db : DB) (teacher : String) (day : Int) : Nat :=
  (db.bookings.filter (fun b => b.teacher == teacher && b.date == day)).length

/-- `backend.count_parallel_on_slot`. -/
def count_parallel_on_slot (db : DB) (day : Int) (slot : String) : Nat :=
  (db.bookings.filter (fun b => b.date == day && b.slot == slot)).length

/-- The loop body of `backend.pick_teacher` over an explicit candidate
list. -/
def pickFrom (cfg : Config) (db : DB) (day : Int) (slot : String) : List String → Option String
  | [] => none
  | t :: rest =>
    if is_teacher_unavailable db t day slot then pickFrom cfg db day slot rest
    else if teacher_busy db t day slot then pickFrom cfg db day slot rest
    else if daily_limit_for_teacher cfg t ≤ (count_teacher_on_day db t day : Int) then
      pickFrom cfg db day slot rest
    else some t

/-- `backend.pick_teacher`. -/
def pick_teacher (cfg : Config) (db : DB) (subject : String) (day : Int) (slot : String) :
    Option String :=
  pickFrom cfg db day slot (candidates_for_subject subject)

/-- A candidate passes all three per-teacher checks of `pick_teacher`. -/
def eligible_candidate (cfg : Config) (db : DB) (day : Int) (slot : String) (t : String) : Bool :=
  !(is_teacher_unavailable db t day slot) && !(teacher_busy db t day slot) &&
    decide ((count_teacher_on_day db t day : Int) < daily_limit_for_teacher cfg t)

/-- `backend._enforce_booking_window` (the `slot_str` parameter is unused in
the source as well). -/
def _enforce_booking_window (clk : Clock) (day : Int) (slot : String) : Bool × String :=
  if day ≤ clk.today then
    (false, "❌ Sessions must be booked at least one day in advance.")
  else if day = clk.today + 1 ∧ 840 ≤ clk.nowMinutes then
    (false, "❌ You can only book for tomorrow before 02:00 PM.")
  else (true, "")

/-- The f-string `f"{teacher} has reached the daily limit ({limit})."`. -/
def limit_msg (cfg : Config) (teacher : String) : String :=
  teacher ++ " has reached the daily limit (" ++
    toString (daily_limit_for_teacher cfg teacher) ++ ")."

/-- The booking row that `record_booking`'s `INSERT` writes, with the id
the autoincrement column assigns and the creation timestamp. -/
def row_of_form (id : Nat) (ts : String) (d : FormData) : Booking :=
  { id := id, booking_type := d.booking_type, school_name := d.school_name,
    title_used := d.title_used, grade := d.grade, curriculum := d.curriculum,
    subject := d.subject, date := d.date, slot := d.slot, topic := d.topic,
    salesperson_name := d.salesperson_name, salesperson_number := d.salesperson_number,
    salesperson_email := d.salesperson_email, teacher := d.teacher, timestamp := ts }

/-- `SELECT MAX(id) FROM bookings` (`0` for the empty table, which Python
then maps to `None` through its truthiness check). -/
def max_booking_id (db : DB) : Nat :=
  (db.bookings.map Booking.id).foldl Nat.max 0

/-- `backend.record_booking`: re-checks the window, the parallel-slot cap,
the duplicate guard, the chosen teacher's availability and daily cap, and
only then inserts the row and reports `SELECT MAX(id)` as the new id. -/
def record_booking (cfg : Config) (clk : Clock) (db : DB) (data : FormData) :
    (Bool × String × Option Nat) × DB :=
  if (_enforce_booking_window clk data.date data.slot).1 = false then
    ((false, (_enforce_booking_window clk data.date data.slot).2, none), db)
  else if cfg.maxParallelPerSlot ≤ count_parallel_on_slot db data.date data.slot then
    ((false, "This slot is full. Please choose another time.", none), db)
  else if exists_booking db data.school_name data.subject data.date data.slot then
    ((false, "This school & subject is already booked for that date & slot.", none), db)
  else if is_teacher_unavailable db data.teacher data.date data.slot ||
      teacher_busy db data.teacher data.date data.slot then
    ((false, "Selected teacher is not available in this slot.", none), db)
  else if daily_limit_for_teacher cfg data.teacher ≤
      (count_teacher_on_day db data.teacher data.date : Int) then
    ((false, limit_msg cfg data.teacher, none), db)
  else
    let db2 : DB := { db with
      bookings := db.bookings ++ [row_of_form db.nextId clk.tsString data],
      nextId := db.nextId + 1 }
    ((true, "Booking successfully created.",
       if max_booking_id db2 = 0 then none else some (max_booking_id db2)), db2)

/-- `backend.attempt_booking`: window, parallel cap, duplicate guard,
teacher resolution (Python's `if not teacher` also treats an empty-string
teacher as a failure), a daily-cap re-check, then `record_booking`. -/
def attempt_booking (cfg : Config) (clk : Clock) (db : DB) (form : FormData) :
    (Bool × String × Option Nat) × DB :=
  if (_enforce_booking_window clk form.date form.slot).1 = false then
    ((false, (_enforce_booking_window clk form.date form.slot).2, none), db)
  else if cfg.maxParallelPerSlot ≤ count_parallel_on_slot db form.date form.slot then
    ((false, "This slot is full. Please choose another time.", none), db)
  else if exists_booking db form.school_name form.subject form.date form.slot then
    ((false, "This school & subject is already booked for that date & slot.", none), db)
  else
    match pick_teacher cfg db form.subject form.date form.slot with
    | none =>
      ((false, "No suitable teacher available (busy/unavailable/daily cap reached).", none), db)
    | some teacher =>
      if teacher = "" then
        ((false, "No suitable teacher available (busy/unavailable/daily cap reached).", none), db)
      else if daily_limit_for_teacher cfg teacher ≤
          (count_teacher_on_day db teacher form.date : Int) then
        ((false, limit_msg cfg teacher, none), db)
      else
        match record_booking cfg clk db { form with teacher := teacher } with
        | ((true, _, bid), db2) => ((true, "Booked with " ++ teacher ++ ".", bid), db2)
        | ((false, msg, _), db2) => ((false, msg, none), db2)

/-- `backend.delete_booking` on an integer identity: `DELETE FROM bookings
WHERE id=%s`. -/
def delete_booking (db : DB) (booking_id : Nat) : DB :=
  { db with bookings := db.bookings.filter (fun b => !(b.id == booking_id)) }

/-- All five checks that `record_booking` runs before inserting. -/
def admission_ok (cfg : Config) (clk : Clock) (db : DB) (data : FormData) : Prop :=
  (_enforce_booking_window clk data.date data.slot).1 = true ∧
  count_parallel_on_slot db data.date data.slot < cfg.maxParallelPerSlot ∧
  exists_booking db data.school_name data.subject data.date data.slot = false ∧
  is_teacher_unavailable db data.teacher data.date data.slot = false ∧
  teacher_busy db data.teacher data.date data.slot = false ∧
  (count_teacher_on_day db data.teacher data.date : Int) <
    daily_limit_for_teacher cfg data.teacher

instance (cfg : Config) (clk : Clock) (db : DB) (data : FormData) :
    Decidable (admission_ok cfg clk db data) := by
  unfold admission_ok; infer_instance

/-- The id column really is autoincrement-fresh: every stored id is below
`nextId`, and ids start at `1`. -/
def wfDB (db : DB) : Prop :=
  0 < db.nextId ∧ ∀ b ∈ db.bookings, b.id < db.nextId

instance (db : DB) : Decidable (wfDB db) := by
  unfold wfDB; infer_instance

/-! ### Helper lemmas -/

/-- The candidate walk of `pick_teacher` is a first-match search with the
three per-teacher checks. -/
theorem pickFrom_eq_find (cfg : Config) (db : DB) (day : Int) (slot : String)
    (l : List String) :
    pickFrom cfg db day slot l = l.find? (eligible_candidate cfg db day slot) := by
  induction l with
  | nil => rfl
  | cons t rest ih =>
    cases h1 : is_teacher_unavailable db t day slot with
    | true => simp [pickFrom, h1, ih, List.find?, eligible_candidate]
    | false =>
      cases h2 : teacher_busy db t day slot with
      | true => simp [pickFrom, h1, h2, ih, List.find?, eligible_candidate]
      | false =>
        by_cases h3 : daily_limit_for_teacher cfg t ≤ (count_teacher_on_day db t day : Int)
        · simp [pickFrom, h1, h2, h3, ih, List.find?, eligible_candidate, not_lt.mpr h3]
        · simp [pickFrom, h1, h2, h3, ih, List.find?, eligible_candidate, not_le.mp h3]

/-- A selected teacher passes all three per-teacher checks. -/
theorem pick_teacher_eligible (cfg : Config) (db : DB) (subject : String) (day : Int)
    (slot : String) (t : String)
    (h : pick_teacher cfg db subject day slot = some t) :
    is_teacher_unavailable db t day slot = false ∧ teacher_busy db t day slot = false ∧
      (count_teacher_on_day db t day : Int) < daily_limit_for_teacher cfg t := by
  rw [pick_teacher, pickFrom_eq_find] at h
  have he := List.find?_some h
  simp only [eligible_candidate, Bool.and_eq_true, Bool.not_eq_true', decide_eq_true_eq] at he
  exact ⟨he.1.1, he.1.2, he.2⟩

/-- A hit in the front list wins over anything appended after it. -/
theorem lookupAssoc_append_some {β : Type} (l1 l2 : List (String × β)) (k : String)
    (v : β) (h : lookupAssoc l1 k = some v) : lookupAssoc (l1 ++ l2) k = some v := by
  induction l1 with
  | nil => exact absurd h (by simp [lookupAssoc])
  | cons p rest ih =>
    by_cases hp : p.1 == k
    · simpa [lookupAssoc, hp] using h
    · rw [lookupAssoc, if_neg hp] at h
      simpa [lookupAssoc, hp] using ih h

/-- A miss in the front list defers to the appended list. -/
theorem lookupAssoc_append_none {β : Type} (l1 l2 : List (String × β)) (k : String)
    (h : lookupAssoc l1 k = none) : lookupAssoc (l1 ++ l2) k = lookupAssoc l2 k := by
  induction l1 with
  | nil => rfl
  | cons p rest ih =>
    by_cases hp : p.1 == k
    · rw [lookupAssoc, if_pos hp] at h
      exact absurd h (by simp)
    · rw [lookupAssoc, if_neg hp] at h
      simpa [lookupAssoc, hp] using ih h

/-- A fold with `Nat.max` stays below any bound dominating the seed and all
elements. -/
theorem foldl_max_le (l : List Nat) (a n : Nat) (ha : a ≤ n) (h : ∀ x ∈ l, x ≤ n) :
    l.foldl Nat.max a ≤ n := by
  induction l generalizing a with
  | nil => exact ha
  | cons x xs ih =>
    exact ih (Nat.max a x) (Nat.max_le.mpr ⟨ha, h x (by simp)⟩)
      (fun y hy => h y (by simp [hy]))

/-- On a well-formed database, inserting the row carrying `nextId` makes
`SELECT MAX(id)` return exactly that fresh id. -/
theorem max_booking_id_insert (db : DB) (row : Booking) (hrow : row.id = db.nextId)
    (hwf : wfDB db) :
    max_booking_id { db with bookings := db.bookings ++ [row], nextId := db.nextId + 1 } =
      db.nextId := by
  unfold max_booking_id
  simp only [List.map_append, List.foldl_append, List.map_cons, List.map_nil, List.foldl_cons,
    List.foldl_nil, hrow]
  exact Nat.max_eq_right (foldl_max_le _ 0 db.nextId (Nat.zero_le _)
    (fun x hx => by
      obtain ⟨b, hb, hbx⟩ := List.mem_map.mp hx
      exact hbx ▸ Nat.le_of_lt (hwf.2 b hb)))

/-- The daily-limit message is never the empty string. -/
theorem limit_msg_ne_empty (cfg : Config) (t : String) : limit_msg cfg t ≠ "" := by
  intro h
  have hl := congrArg String.length h
  unfold limit_msg at hl
  simp only [String.length_append] at hl
  have h2 : (")." : String).length = 2 := rfl
  have h0 : ("" : String).length = 0 := rfl
  omega

/-- When the booking window rejects, its message is nonempty. -/
theorem window_msg_ne_empty (clk : Clock) (d : Int) (slot : String)
    (h : (_enforce_booking_window clk d slot).1 = false) :
    (_enforce_booking_window clk d slot).2 ≠ "" := by
  unfold _enforce_booking_window at *
  split_ifs at h ⊢ <;> simp_all

/-- The slot-full message is nonempty. -/
theorem slot_full_msg_ne : ("This slot is full. Please choose another time." : String) ≠ "" := by
  decide

/-- The duplicate-booking message is nonempty. -/
theorem dup_msg_ne :
    ("This school & subject is already booked for that date & slot." : String) ≠ "" := by
  decide

/-- The no-suitable-teacher message is nonempty. -/
theorem no_teacher_msg_ne :
    ("No suitable teacher available (busy/unavailable/daily cap reached)." : String) ≠ "" := by
  decide

/-- When `record_booking` rejects, its message is nonempty. -/
theorem record_msg_ne_empty (cfg : Config) (clk : Clock) (db : DB) (data : FormData)
    (h : (record_booking cfg clk db data).1.1 = false) :
    (record_booking cfg clk db data).1.2.1 ≠ "" := by
  unfold record_booking at h ⊢
  split_ifs at h ⊢ with h1 h2 h3 h4 h5
  · exact window_msg_ne_empty clk data.date data.slot h1
  · simp
  · simp
  · simp
  · exact limit_msg_ne_empty cfg data.teacher

/-! ### Concrete data for the witnesses -/

/-- A structurally well-formed booking request used by the witnesses. -/
def sampleForm : FormData :=
  { booking_type := "Live Class", school_name := "Springfield", title_used := some "Cordova",
    grade := some "5", curriculum := some "CBSE", subject := "Mathematics",
    date := 2, slot := "10:00–10:40", topic := none,
    salesperson_name := "Sam", salesperson_number := "9999999999",
    salesperson_email := "sam@example.com", teacher := "Vivek Sir" }

/-- A morning instant (10:00, i.e. 600 minutes) on day `0`. -/
def morningClock : Clock := { today := 0, nowMinutes := 600, tsString := "T0" }

/-- An afternoon instant (15:00, i.e. 900 minutes) on day `0`. -/
def afternoonClock : Clock := { today := 0, nowMinutes := 900, tsString := "T1" }

/-! ### Claim theorems -/

/-- C1: `pick_teacher` walks the Teacher Directory's candidate list for the
subject in list order and returns the first candidate that is not
explicitly unavailable, not already booked at that (date, slot), and
strictly below its effective daily cap for that date; it returns `none`
when every candidate fails some check or the subject has no candidates,
and when several candidates are eligible the earliest-listed one is the
result — it is exactly a first-match search over the candidate list. -/
theorem pick_teacher_first_eligible (cfg : Config) (db : DB) (subject : String)
    (day : Int) (slot : String) :
    pick_teacher cfg db subject day slot =
      (candidates_for_subject subject).find? (eligible_candidate cfg db day slot) :=
  pickFrom_eq_find cfg db day slot (candidates_for_subject subject)

/-- C2: the booking-window check rejects every session date at or before
today; for a session date of exactly tomorrow it rejects precisely when
the local wall clock is at or past 14:00 (minute 840); and it accepts any
session date two or more days out regardless of the time of day. -/
theorem booking_window_spec (clk : Clock) (d : Int) (slot : String) :
    (d ≤ clk.today → (_enforce_booking_window clk d slot).1 = false) ∧
    (d = clk.today + 1 →
      ((_enforce_booking_window clk d slot).1 = false ↔ 840 ≤ clk.nowMinutes)) ∧
    (clk.today + 2 ≤ d → (_enforce_booking_window clk d slot).1 = true) := by
  unfold _enforce_booking_window
  refine ⟨fun h => by simp [h], fun h => ?_, fun h => ?_⟩
  · have h1 : ¬ d ≤ clk.today := by omega
    by_cases h2 : 840 ≤ clk.nowMinutes
    · simp [h1, h, h2]
    · simp [h1, h, h2]
  · have h1 : ¬ d ≤ clk.today := by omega
    have h2 : ¬ (d = clk.today + 1 ∧ 840 ≤ clk.nowMinutes) := by
      rintro ⟨he, _⟩; omega
    simp [h1, h2]

/-- Witness for C2: on day 0 at 15:00, a request for day 0 is rejected, a
request for tomorrow (day 1) is rejected, and a request for day 2 is
accepted; at 10:00 the same tomorrow request is accepted. -/
theorem booking_window_spec_witness :
    (_enforce_booking_window afternoonClock 0 "10:00–10:40").1 = false ∧
    (_enforce_booking_window afternoonClock 1 "10:00–10:40").1 = false ∧
    (_enforce_booking_window afternoonClock 2 "10:00–10:40").1 = true ∧
    ¬ (_enforce_booking_window morningClock 1 "10:00–10:40").1 = false :=
  ⟨(booking_window_spec afternoonClock 0 "10:00–10:40").1 (by decide),
   ((booking_window_spec afternoonClock 1 "10:00–10:40").2.1 (by decide)).mpr (by decide),
   (booking_window_spec afternoonClock 2 "10:00–10:40").2.2 (by decide),
   fun h => by
     have := ((booking_window_spec morningClock 1 "10:00–10:40").2.1 (by decide)).mp h
     exact absurd this (by decide)⟩

/-- C8: `delete_booking` is idempotent on identities — deleting the same
identity a second time leaves the store unchanged and completes (it is a
total function), so the second call is a no-op rather than a failure. -/
theorem delete_booking_idem (db : DB) (i : Nat) :
    delete_booking (delete_booking db i) i = delete_booking db i := by
  unfold delete_booking
  simp [List.filter_filter]

/-- C9: the booking-window decision never consults the slot argument — at
the same instant and session date, any two slot strings produce the same
(accepted, message) pair. -/
theorem window_slot_noninterference (clk : Clock) (d : Int) (s1 s2 : String) :
    _enforce_booking_window clk d s1 = _enforce_booking_window clk d s2 := rfl

/-- C3: `attempt_booking` evaluates its guards in a fixed order with the
first failure winning: a failing booking window returns that window's
message untouched by any later check; with the window passed, a (date,
slot) booking count at or above the parallel cap (default 3 in the
default configuration) returns the slot-full message; with both passed, an
existing (school, subject, date, slot) booking returns the duplicate
message; and only with all three passed does teacher resolution decide the
outcome (a failed resolution returning the no-suitable-teacher message).
In every rejection the store is left unchanged. -/
theorem guard_order_spec (cfg : Config) (clk : Clock) (db : DB) (form : FormData) :
    (∀ m, _enforce_booking_window clk form.date form.slot = (false, m) →
      attempt_booking cfg clk db form = ((false, m, none), db)) ∧
    ((_enforce_booking_window clk form.date form.slot).1 = true →
      cfg.maxParallelPerSlot ≤ count_parallel_on_slot db form.date form.slot →
      attempt_booking cfg clk db form =
        ((false, "This slot is full. Please choose another time.", none), db)) ∧
    ((_enforce_booking_window clk form.date form.slot).1 = true →
      count_parallel_on_slot db form.date form.slot < cfg.maxParallelPerSlot →
      exists_booking db form.school_name form.subject form.date form.slot = true →
      attempt_booking cfg clk db form =
        ((false, "This school & subject is already booked for that date & slot.", none), db)) ∧
    ((_enforce_booking_window clk form.date form.slot).1 = true →
      count_parallel_on_slot db form.date form.slot < cfg.maxParallelPerSlot →
      exists_booking db form.school_name form.subject form.date form.slot = false →
      pick_teacher cfg db form.subject form.date form.slot = none →
      attempt_booking cfg clk db form =
        ((false, "No suitable teacher available (busy/unavailable/daily cap reached).",
          none), db)) ∧
    defaultConfig.maxParallelPerSlot = 3 := by
  refine ⟨?_, ?_, ?_, ?_, rfl⟩
  · intro m hm
    simp [attempt_booking, hm]
  · intro h1 h2
    simp [attempt_booking, h1, h2]
  · intro h1 h2 h3
    simp [attempt_booking, h1, not_le.mpr h2, h3]
  · intro h1 h2 h3 h4
    simp [attempt_booking, h1, not_le.mpr h2, h3, h4]

/-- Witness for C3: concrete instances of all four guard branches — a
same-day request fails with the window message; a full slot, a duplicate
(school, subject, date, slot) and an unknown subject each fail with their
own message, in that priority. -/
theorem guard_order_spec_witness :
    attempt_booking defaultConfig afternoonClock emptyDB { sampleForm with date := 0 } =
      ((false, "❌ Sessions must be booked at least one day in advance.", none), emptyDB) ∧
    attempt_booking { defaultConfig with maxParallelPerSlot := 0 } morningClock emptyDB
        sampleForm =
      ((false, "This slot is full. Please choose another time.", none), emptyDB) ∧
    attempt_booking defaultConfig morningClock
        { emptyDB with
          bookings := [row_of_form 1 "T0" sampleForm], nextId := 2 } sampleForm =
      ((false, "This school & subject is already booked for that date & slot.", none),
       { emptyDB with bookings := [row_of_form 1 "T0" sampleForm], nextId := 2 }) ∧
    attempt_booking defaultConfig morningClock emptyDB { sampleForm with subject := "Zumba" } =
      ((false, "No suitable teacher available (busy/unavailable/daily cap reached).",
        none), emptyDB) :=
  ⟨(guard_order_spec defaultConfig afternoonClock emptyDB { sampleForm with date := 0 }).1
      _ (by decide),
   (guard_order_spec { defaultConfig with maxParallelPerSlot := 0 } morningClock emptyDB
      sampleForm).2.1 (by decide) (by decide),
   (guard_order_spec defaultConfig morningClock
      { emptyDB with bookings := [row_of_form 1 "T0" sampleForm], nextId := 2 }
      sampleForm).2.2.1 (by decide) (by decide) (by decide),
   (guard_order_spec defaultConfig morningClock emptyDB
      { sampleForm with subject := "Zumba" }).2.2.2.1
      (by decide) (by decide) (by decide) (by decide)⟩

/-- C5: a teacher is judged unavailable exactly when an unavailability row
exists for that teacher and date whose slot is `NULL` (whole day) or equal
to the requested slot; a teacher is judged busy exactly when some booking
row has that teacher at that exact (date, slot); and a teacher satisfying
either predicate is never returned by teacher resolution. -/
theorem availability_spec (cfg : Config) (db : DB) (t : String) (day : Int) (slot : String) :
    (is_teacher_unavailable db t day slot = true ↔
      ∃ u ∈ db.unavail, u.teacher = t ∧ u.date = day ∧
        (u.slot = none ∨ u.slot = some slot)) ∧
    (teacher_busy db t day slot = true ↔
      ∃ b ∈ db.bookings, b.teacher = t ∧ b.date = day ∧ b.slot = slot) ∧
    (∀ subject,
      (is_teacher_unavailable db t day slot = true ∨ teacher_busy db t day slot = true) →
      pick_teacher cfg db subject day slot ≠ some t) := by
  refine ⟨?_, ?_, ?_⟩
  · simp [is_teacher_unavailable, List.any_eq_true, and_assoc]
  · simp [teacher_busy, List.any_eq_true, and_assoc]
  · intro subject h hpick
    obtain ⟨hu, hb, _⟩ := pick_teacher_eligible cfg db subject day slot t hpick
    cases h with
    | inl h => rw [h] at hu; exact Bool.noConfusion hu
    | inr h => rw [h] at hb; exact Bool.noConfusion hb

/-- Witness for C5: with Aparajita marked unavailable for the whole day and
Deepanshi already booked in the slot, resolution never returns either of
them (it picks Megha instead). -/
theorem availability_spec_witness :
    pick_teacher defaultConfig
      { bookings := [row_of_form 1 "T0"
          { sampleForm with subject := "English", teacher := "Deepanshi" }],
        unavail := [{ teacher := "Aparajita", date := 2, slot := none }],
        nextId := 2 } "English" 2 "10:00–10:40" ≠ some "Aparajita" :=
  (availability_spec defaultConfig
    { bookings := [row_of_form 1 "T0"
        { sampleForm with subject := "English", teacher := "Deepanshi" }],
      unavail := [{ teacher := "Aparajita", date := 2, slot := none }],
      nextId := 2 } "Aparajita" 2 "10:00–10:40").2.2 "English" (Or.inl (by decide))

/-- C10: a subject that is not a key of the Teacher Directory has an empty
candidate list, so once the window, parallel-cap and duplicate checks
pass, `attempt_booking` returns `accepted = false` with the
no-suitable-teacher message and leaves the store unchanged. -/
theorem unknown_subject_rejected (cfg : Config) (clk : Clock) (db : DB) (form : FormData)
    (hsub : lookupAssoc TEACHER_MAP form.subject = none)
    (hwin : (_enforce_booking_window clk form.date form.slot).1 = true)
    (hcap : count_parallel_on_slot db form.date form.slot < cfg.maxParallelPerSlot)
    (hdup : exists_booking db form.school_name form.subject form.date form.slot = false) :
    candidates_for_subject form.subject = [] ∧
    attempt_booking cfg clk db form =
      ((false, "No suitable teacher available (busy/unavailable/daily cap reached).",
        none), db) := by
  have hcand : candidates_for_subject form.subject = [] := by
    unfold candidates_for_subject
    rw [hsub]
    rfl
  have hpick : pick_teacher cfg db form.subject form.date form.slot = none := by
    unfold pick_teacher
    rw [hcand]
    rfl
  exact ⟨hcand, by simp [attempt_booking, hwin, not_le.mpr hcap, hdup, hpick]⟩

/-- Witness for C10: the subject "Zumba" is not in the directory; with all
request-level checks passing, the attempt is rejected with the
no-suitable-teacher message and the store stays empty. -/
theorem unknown_subject_rejected_witness :
    candidates_for_subject "Zumba" = [] ∧
    attempt_booking defaultConfig morningClock emptyDB
        { sampleForm with subject := "Zumba", date := 3 } =
      ((false, "No suitable teacher available (busy/unavailable/daily cap reached).",
        none), emptyDB) :=
  unknown_subject_rejected defaultConfig morningClock emptyDB
    { sampleForm with subject := "Zumba", date := 3 }
    (by decide) (by decide) (by decide) (by decide)

/-- C4: the effective daily cap of a teacher is the per-teacher override
looked up under the normalised key when one is configured, otherwise the
global default (which is 2 when no configuration is supplied) — except
that a teacher whose normalised key is `MEGHA` has an effective cap of 1
even with no configuration, unless an explicit override for her is given;
and teacher resolution never returns a candidate whose booking count for
the requested date is at or above this cap. -/
theorem daily_cap_spec (cfg : Config) (db : DB) (t : String) :
    (∀ v, configured_override cfg (_norm_key t) = some v →
      daily_limit_for_teacher cfg t = v) ∧
    (configured_override cfg (_norm_key t) = none → _norm_key t ≠ "MEGHA" →
      daily_limit_for_teacher cfg t = cfg.defaultMaxPerTeacher) ∧
    (configured_override cfg (_norm_key t) = none → _norm_key t = "MEGHA" →
      daily_limit_for_teacher cfg t = 1) ∧
    (daily_limit_for_teacher defaultConfig t =
      if _norm_key t = "MEGHA" then 1 else 2) ∧
    (∀ subject day slot t2, pick_teacher cfg db subject day slot = some t2 →
      (count_teacher_on_day db t2 day : Int) < daily_limit_for_teacher cfg t2) := by
  refine ⟨?_, ?_, ?_, ?_, ?_⟩
  · intro v hv
    unfold configured_override at hv
    unfold daily_limit_for_teacher _per_teacher_limits
    rw [lookupAssoc_append_some _ _ _ v hv]
    rfl
  · intro hnone hne
    unfold configured_override at hnone
    unfold daily_limit_for_teacher _per_teacher_limits
    rw [lookupAssoc_append_none _ _ _ hnone]
    simp [lookupAssoc, beq_eq_false_iff_ne.mpr (Ne.symm hne)]
  · intro hnone heq
    unfold configured_override at hnone
    unfold daily_limit_for_teacher _per_teacher_limits
    rw [lookupAssoc_append_none _ _ _ hnone]
    simp [lookupAssoc, heq]
  · by_cases hm : _norm_key t = "MEGHA"
    · simp [daily_limit_for_teacher, _per_teacher_limits, defaultConfig, lookupAssoc, hm]
    · simp [daily_limit_for_teacher, _per_teacher_limits, defaultConfig, lookupAssoc, hm,
        beq_eq_false_iff_ne.mpr (Ne.symm hm)]
  · intro subject day slot t2 h
    exact (pick_teacher_eligible cfg db subject day slot t2 h).2.2

/-- Witness for C4: with no configuration Megha's effective cap is 1 while
Vivek Sir's is the default 2; an explicit override for the `MEGHA` key
replaces the hard-coded 1. -/
theorem daily_cap_spec_witness :
    daily_limit_for_teacher defaultConfig "Megha" = 1 ∧
    daily_limit_for_teacher defaultConfig "Vivek Sir" = defaultConfig.defaultMaxPerTeacher ∧
    daily_limit_for_teacher { defaultConfig with perTeacherRaw := [("megha", 4)] } "Megha" = 4 :=
  ⟨(daily_cap_spec defaultConfig emptyDB "Megha").2.2.1 (by decide) (by decide),
   (daily_cap_spec defaultConfig emptyDB "Vivek Sir").2.1 (by decide) (by decide),
   (daily_cap_spec { defaultConfig with perTeacherRaw := [("megha", 4)] } emptyDB "Megha").1
     4 (by decide)⟩

/-- C6 counterexample: `record_booking` does perform policy checks — handed
a structurally well-formed booking row whose session date is not in the
future, it refuses to persist it, returns `accepted = false` with the
booking-window message and no identity, and leaves the store unchanged,
contradicting the claim that it persists every well-formed row and leaves
all admission checking to its callers. -/
theorem record_booking_no_checks_cex :
    record_booking defaultConfig afternoonClock emptyDB { sampleForm with date := 0 } =
      ((false, "❌ Sessions must be booked at least one day in advance.", none), emptyDB) := by
  decide

/-- C6 (amended): `record_booking` re-applies the full admission policy
(booking window, slot parallelism cap, duplicate guard, teacher
availability and busyness, per-teacher daily cap); when every check passes
it persists the row with the freshly assigned identity and the creation
timestamp and returns that new identity, and when any check fails it
persists nothing, returns no identity, and reports `accepted = false`. -/
theorem record_booking_spec (cfg : Config) (clk : Clock) (db : DB) (data : FormData) :
    (admission_ok cfg clk db data → wfDB db →
      record_booking cfg clk db data =
        ((true, "Booking successfully created.", some db.nextId),
         { db with bookings := db.bookings ++ [row_of_form db.nextId clk.tsString data],
                   nextId := db.nextId + 1 })) ∧
    (¬ admission_ok cfg clk db data →
      (record_booking cfg clk db data).1.1 = false ∧
      (record_booking cfg clk db data).1.2.2 = none ∧
      (record_booking cfg clk db data).2 = db) := by
  constructor
  · rintro ⟨h1, h2, h3, h4, h5, h6⟩ hwf
    have hmax := max_booking_id_insert db (row_of_form db.nextId clk.tsString data) rfl hwf
    simp [record_booking, h1, h3, h4, h5, not_le.mpr h2, not_le.mpr h6, hmax,
      Nat.pos_iff_ne_zero.mp hwf.1]
  · intro hn
    unfold record_booking
    split_ifs with h1 h2 h3 h4 h5
    · exact ⟨rfl, rfl, rfl⟩
    · exact ⟨rfl, rfl, rfl⟩
    · exact ⟨rfl, rfl, rfl⟩
    · exact ⟨rfl, rfl, rfl⟩
    · exact ⟨rfl, rfl, rfl⟩
    · exfalso
      apply hn
      refine ⟨?_, not_le.mp h2, ?_, ?_, ?_, not_le.mp h5⟩
      · cases hw : (_enforce_booking_window clk data.date data.slot).1
        · exact absurd hw h1
        · rfl
      · cases he : exists_booking db data.school_name data.subject data.date data.slot
        · rfl
        · exact absurd he h3
      · cases hu : is_teacher_unavailable db data.teacher data.date data.slot
        · rfl
        · exact absurd (by simp [hu]) h4
      · cases hb : teacher_busy db data.teacher data.date data.slot
        · rfl
        · exact absurd (by simp [hb]) h4

/-- Witness for the amended C6: a fully admissible request on the empty
store is persisted with identity 1 and the clock's timestamp. -/
theorem record_booking_spec_witness :
    record_booking defaultConfig morningClock emptyDB sampleForm =
      ((true, "Booking successfully created.", some 1),
       { bookings := [row_of_form 1 "T0" sampleForm], unavail := [], nextId := 2 }) :=
  (record_booking_spec defaultConfig morningClock emptyDB sampleForm).1 (by decide) (by decide)

/-- C7: `attempt_booking` always returns an explicit (accepted, message,
optional id) triple: it is a total function, every policy rejection and
resolution failure yields `accepted = false` with a nonempty
human-readable message and no identity, and every acceptance carries the
message naming the teacher that resolution chose. -/
theorem attempt_result_shape (cfg : Config) (clk : Clock) (db : DB) (form : FormData) :
    ((attempt_booking cfg clk db form).1.1 = false →
      (attempt_booking cfg clk db form).1.2.2 = none ∧
      (attempt_booking cfg clk db form).1.2.1 ≠ "") ∧
    ((attempt_booking cfg clk db form).1.1 = true →
      ∃ t, pick_teacher cfg db form.subject form.date form.slot = some t ∧
        (attempt_booking cfg clk db form).1.2.1 = "Booked with " ++ t ++ ".") := by
  unfold attempt_booking
  split_ifs with h1 h2 h3
  · exact ⟨fun _ => ⟨rfl, window_msg_ne_empty clk form.date form.slot h1⟩,
      fun h => by simp at h⟩
  · exact ⟨fun _ => ⟨rfl, slot_full_msg_ne⟩, fun h => by simp at h⟩
  · exact ⟨fun _ => ⟨rfl, dup_msg_ne⟩, fun h => by simp at h⟩
  · split
    · exact ⟨fun _ => ⟨rfl, no_teacher_msg_ne⟩, fun h => by simp at h⟩
    · next t hp =>
      split_ifs with ht hl
      · exact ⟨fun _ => ⟨rfl, no_teacher_msg_ne⟩, fun h => by simp at h⟩
      · exact ⟨fun _ => ⟨rfl, limit_msg_ne_empty cfg t⟩, fun h => by simp at h⟩
      · split
        · next fst bid db2 hr =>
          exact ⟨fun h => by simp at h, fun _ => ⟨t, hp, rfl⟩⟩
        · next msg snd db2 hr =>
          refine ⟨fun _ => ⟨rfl, ?_⟩, fun h => by simp at h⟩
          have hmsg := record_msg_ne_empty cfg clk db { form with teacher := t } (by rw [hr])
          rw [hr] at hmsg
          exact hmsg

/-- Witness for C7: a rejected same-day request yields `accepted = false`,
no identity, and a nonempty message. -/
theorem attempt_result_shape_witness :
    (attempt_booking defaultConfig afternoonClock emptyDB
        { sampleForm with date := 0 }).1.2.2 = none ∧
    (attempt_booking defaultConfig afternoonClock emptyDB
        { sampleForm with date := 0 }).1.2.1 ≠ "" :=
  (attempt_result_shape defaultConfig afternoonClock emptyDB
    { sampleForm with date := 0 }).1 (by decide)

end Cordova
